import Mathlib

/-!
Verification development for the `aws_semantic_search_app` backend
(`zappa_backend/app.py`, `bedrock_embeddings.py`,
`llm_summarize_from_opensearch.py`, `opensearch_client.py`).

The Python code is shallowly embedded: every outbound network interaction
(Bedrock embedding model, OpenSearch query, WebSocket post, Bedrock LLM)
is represented by an oracle value describing what that call would return
(`Except` for calls that may raise).  Python dictionaries with optional
keys become structures with `Option` fields; `dict.get(k, d)` becomes
`Option.getD`.  Numeric scores (Python floats) are modelled as `Int`:
no claim here depends on float arithmetic or on the exact `:.3f`
rendering, which is abstracted to `toString`.  Control flow (try/except,
truthiness tests, early returns) is translated branch by branch from the
source.
-/

namespace SemanticSearch

/-- An embedding vector.  Component values never matter to the code
(only truthiness/emptiness of the list), so components are `Int`. -/
abbrev Embedding : Type := List Int

/-- The `_source` dictionary of an OpenSearch hit: every key may be absent.
Mirrors the fields read in `app.py` lines 166-176. -/
structure Source where
  title : Option String
  summary : Option String
  content : Option String
  sentiment_label : Option String
  sentiment_score : Option Int
  category : Option String
deriving DecidableEq, Repr

/-- The `{}` default of `hit.get('_source', {})`. -/
def emptySource : Source :=
  { title := none, summary := none, content := none,
    sentiment_label := none, sentiment_score := none, category := none }

/-- A raw OpenSearch hit as `perform_semantic_search` reads it:
`_source` and `_score` may each be absent. -/
structure Hit where
  source : Option Source
  score : Option Int
deriving DecidableEq, Repr

/-- Formatted sentiment sub-record (`app.py` lines 172-175). -/
structure Sentiment where
  label : String
  score : Int
deriving DecidableEq, Repr

/-- A formatted search result (`app.py` lines 167-177). -/
structure FormattedResult where
  title : String
  summary : String
  content : String
  score : Int
  sentiment : Sentiment
  category : String
deriving DecidableEq, Repr

/-- The body of the per-hit loop of `perform_semantic_search`
(`app.py` lines 165-178): copies `_source` fields through with the
defaults written in the code.  `source.get('summary', ...)` defaults to
the first 200 characters of content followed by `'...'`. -/
def formatHit (hit : Hit) : FormattedResult :=
  let source := hit.source.getD emptySource
  { title := source.title.getD "Untitled"
    summary := source.summary.getD ((source.content.getD "").take 200 ++ "...")
    content := source.content.getD ""
    score := hit.score.getD 0
    sentiment := { label := source.sentiment_label.getD "Unknown"
                   score := source.sentiment_score.getD 0 }
    category := source.category.getD "Unknown" }

/-- Oracle for one `bedrock.invoke_model` embedding call:
`.error e` — the boto3 call (or JSON decode) raised exception `e`;
`.ok emb` — the call succeeded and `response_body.get('embedding')`
produced `emb` (`none` when the `embedding` key is absent). -/
abbrev EmbeddingCall := Except String (Option Embedding)

/-- `get_bedrock_embedding` of `app.py` (lines 83-99): inside the `try`
it returns `response_body.get('embedding')` unchecked; the `except`
clause re-raises.  So a successful call with a missing vector yields
`none`, not an exception. -/
def get_bedrock_embedding_app (call : EmbeddingCall) : Except String (Option Embedding) :=
  match call with
  | .ok body => .ok body
  | .error e => .error e

/-- `get_bedrock_embedding` of `bedrock_embeddings.py` (lines 10-48):
`if embedding: return embedding / else: return None` — a present but
empty vector is falsy in Python, so it also yields `None`; the `except`
clause re-raises only when the underlying call raised. -/
def get_bedrock_embedding (call : EmbeddingCall) : Except String (Option Embedding) :=
  match call with
  | .error e => .error e
  | .ok none => .ok none
  | .ok (some emb) => if emb.isEmpty then .ok none else .ok (some emb)

/-- Oracle for one OpenSearch `_search` call:
`.error e` — unconfigured endpoint / missing credentials / non-2xx HTTP
response / transport error, raised (and re-raised by
`search_opensearch_by_embedding`);
`.ok hits` — the decoded `response.json().get('hits', {}).get('hits', [])`
list (the two `dict.get` defaults collapse missing keys to `[]`). -/
abbrev SearchCall := Except String (List Hit)

/-- Per-request oracle for the outbound calls `perform_semantic_search`
can make. -/
structure Env where
  embedding : EmbeddingCall
  search : SearchCall

/-- A WebSocket payload as built at the `send_websocket_message` call
sites of `app.py` (the keys each site actually sets; absent keys are
`none`). -/
structure Notification where
  status : Option String
  message : Option String
  results : Option (List FormattedResult)
  query : Option String
  total_results : Option Nat
deriving DecidableEq, Repr

/-- Outbound interactions recorded while handling a request. -/
inductive Outbound where
  | invokeEmbedding : Outbound
  | searchIndex : Outbound
  | postToConnection : Notification → Outbound
deriving DecidableEq, Repr

/-- `perform_semantic_search` (`app.py` lines 146-185), together with the
list of outbound calls it makes.  The whole body is wrapped in
`try/except Exception: return []`, so a raising embedding or search
call yields `[]`; `if not embedding` also catches a `None` or empty
vector, and zero hits short-circuit to `[]` before formatting. -/
def perform_semantic_search (env : Env) (_query_text : String) :
    List FormattedResult × List Outbound :=
  match get_bedrock_embedding_app env.embedding with
  | .error _ => ([], [.invokeEmbedding])
  | .ok none => ([], [.invokeEmbedding])
  | .ok (some emb) =>
    if emb.isEmpty then ([], [.invokeEmbedding])
    else
      match env.search with
      | .error _ => ([], [.invokeEmbedding, .searchIndex])
      | .ok hits =>
        if hits.isEmpty then ([], [.invokeEmbedding, .searchIndex])
        else (hits.map formatHit, [.invokeEmbedding, .searchIndex])

/-- How one `post_to_connection` attempt ends at the transport:
delivered, the connection is gone (`GoneException`), or some other
exception with message `m`. -/
inductive Delivery where
  | delivered : Delivery
  | gone : Delivery
  | otherFailure : String → Delivery
deriving DecidableEq, Repr

/-- What `send_websocket_message` (`app.py` lines 187-203) did before
returning. -/
inductive SendOutcome where
  | notConfigured : SendOutcome
  | sent : SendOutcome
  | loggedGone : SendOutcome
  | loggedError : String → SendOutcome
deriving DecidableEq, Repr

/-- `send_websocket_message` (`app.py` lines 187-203).  The `Except`
result type records whether the function raises to its caller: it
returns early when no client is configured, and its `try` block catches
`GoneException` and every other `Exception`, logging and returning
normally in each case. -/
def send_websocket_message (clientConfigured : Bool)
    (_connection_id : String) (_message_data : Notification)
    (delivery : Delivery) : Except String SendOutcome :=
  if !clientConfigured then .ok .notConfigured
  else
    match delivery with
    | .delivered => .ok .sent
    | .gone => .ok .loggedGone
    | .otherFailure m => .ok (.loggedError m)

/-- A parsed JSON request body for the two POST endpoints.  `otherKeys`
records whether the dictionary holds any key besides `query` and
`connection_id`, so that Python's `not body` (body is `{}`) is
expressible. -/
structure ReqBody where
  query : Option String
  connection_id : Option String
  otherKeys : Bool
deriving DecidableEq, Repr

/-- Python truthiness of the body dict: `not body` holds exactly when no
key is present. -/
def ReqBody.falsy (b : ReqBody) : Bool :=
  b.query.isNone && b.connection_id.isNone && !b.otherKeys

/-- The JSON body of an HTTP response from `search_endpoint`
(success keys from `app.py` lines 74-78, error key from lines 58/81). -/
structure SearchResponseBody where
  query : Option String
  results : Option (List FormattedResult)
  total_results : Option Nat
  error : Option String
deriving DecidableEq, Repr

/-- An HTTP response: status code plus JSON body. -/
structure HttpResponse where
  status : Nat
  body : SearchResponseBody
deriving DecidableEq, Repr

/-- `search_endpoint` (`app.py` lines 49-81) on a POST request, paired
with its outbound-call trace.  `body? = none` models a request whose
body did not parse to a dict (`request.json` falsy).  Every operation
reachable inside the `try` block is total in this model
(`perform_semantic_search` and `send_websocket_message` swallow their
errors), so the 500 branch of line 80-81 is unreachable. -/
def search_endpoint (env : Env) (wsConfigured : Bool) (body? : Option ReqBody) :
    HttpResponse × List Outbound :=
  let err400 : HttpResponse :=
    { status := 400,
      body := { query := none, results := none, total_results := none,
                error := some "Missing query in request body." } }
  match body? with
  | none => (err400, [])
  | some b =>
    if b.falsy then (err400, [])
    else
      match b.query with
      | none => (err400, [])
      | some query_text =>
        let (results, calls) := perform_semantic_search env query_text
        let wsCalls : List Outbound :=
          match b.connection_id with
          | some cid =>
            if !cid.isEmpty && wsConfigured then
              [.postToConnection
                { status := none,
                  message := some ("Search results for: " ++ query_text),
                  results := some results,
                  query := some query_text,
                  total_results := none }]
            else []
          | none => []
        ({ status := 200,
           body := { query := some query_text, results := some results,
                     total_results := some results.length, error := none } },
         calls ++ wsCalls)

/-- Rendering of a numeric score into the message text.  The Python code
formats floats with `:.3f`; scores are modelled as integers, so the
fixed-point rendering is abstracted to decimal `toString`. -/
def formatScore (n : Int) : String := toString n

/-- The three lines appended for one result of a sentiment section
(`app.py` lines 237-239 and 244-246), with 1-based index `i`. -/
def sentimentItemParts (i : Nat) (r : FormattedResult) : List String :=
  [toString i ++ ". **" ++ r.title ++ "**",
   "   " ++ r.summary,
   "   Score: " ++ formatScore r.score ++ " | Sentiment: "
     ++ formatScore r.sentiment.score ++ "\n"]

/-- The three lines appended for one result of the fallback `Top Results`
section (`app.py` lines 251-253). -/
def topItemParts (i : Nat) (r : FormattedResult) : List String :=
  [toString i ++ ". **" ++ r.title ++ "**",
   "   " ++ r.summary,
   "   Score: " ++ formatScore r.score ++ "\n"]

/-- `for i, result in enumerate(rs, i0): parts += item(i, result)` —
flattens per-item parts with indices counted from `i0`. -/
def enumItemsFrom (item : Nat → FormattedResult → List String) :
    Nat → List FormattedResult → List String
  | _, [] => []
  | i0, r :: rs => item i0 r ++ enumItemsFrom item (i0 + 1) rs

/-- The `response_parts` list built by `process_semantic_search`
(`app.py` lines 232-253): a `Found N results` head line, a positive
section (when any `POSITIVE` result exists, capped at 3 items), a
negative section (likewise), and a flat top-5 section when neither
sentiment bucket is inhabited. -/
def composeParts (query_text : String) (results positive negative : List FormattedResult) :
    List String :=
  let head := ["Found " ++ toString results.length ++ " results for \""
                 ++ query_text ++ "\"\n"]
  let posSection :=
    if positive.isEmpty then []
    else "**Positive Sentiment Results:**"
           :: enumItemsFrom sentimentItemParts 1 (positive.take 3)
  let negSection :=
    if negative.isEmpty then []
    else "**Negative Sentiment Results:**"
           :: enumItemsFrom sentimentItemParts 1 (negative.take 3)
  let topSection :=
    if positive.isEmpty && negative.isEmpty then
      "**Top Results:**" :: enumItemsFrom topItemParts 1 (results.take 5)
    else []
  head ++ posSection ++ negSection ++ topSection

/-- `'\n'.join(parts)` (`app.py` line 255). -/
def joinNl (parts : List String) : String := String.intercalate "\n" parts

/-- The dict returned by the `process_semantic_search` task itself. -/
structure TaskResult where
  status : String
  message : String
deriving DecidableEq, Repr

/-- `process_semantic_search` (`app.py` lines 205-280), returning the
task's result dict paired with its outbound-call trace (in order: the
`processing` notification, the calls of `perform_semantic_search`, then
the terminal notification).  Every operation its `try` block performs is
total in this model (`perform_semantic_search` and the send helper
swallow their errors), so the `search_error` branch of lines 268-280 is
unreachable. -/
def process_semantic_search (env : Env) (query_text : String) :
    TaskResult × List Outbound :=
  let processingNotif : Notification :=
    { status := some "processing",
      message := some ("Processing semantic search for: " ++ query_text),
      results := none, query := none, total_results := none }
  let (results, searchCalls) := perform_semantic_search env query_text
  if results.isEmpty then
    let noResultsNotif : Notification :=
      { status := some "no_results",
        message := some ("No results found for '" ++ query_text
                           ++ "'. Try rephrasing your query."),
        results := some [], query := some query_text, total_results := none }
    ({ status := "no_results", message := "No results found" },
     .postToConnection processingNotif :: searchCalls
       ++ [.postToConnection noResultsNotif])
  else
    let positive := results.filter (fun r => r.sentiment.label == "POSITIVE")
    let negative := results.filter (fun r => r.sentiment.label == "NEGATIVE")
    let response_message := joinNl (composeParts query_text results positive negative)
    let completeNotif : Notification :=
      { status := some "search_complete",
        message := some response_message,
        results := some results, query := some query_text,
        total_results := some results.length }
    ({ status := "success", message := "Search completed successfully" },
     .postToConnection processingNotif :: searchCalls
       ++ [.postToConnection completeNotif])

/-- The JSON body of a `process_search_endpoint` response
(`app.py` lines 291 and 299-303). -/
structure ProcessResponseBody where
  message : Option String
  query : Option String
  connection_id : Option String
  error : Option String
deriving DecidableEq, Repr

/-- An HTTP response of the `/process-search` endpoint. -/
structure ProcessHttpResponse where
  status : Nat
  body : ProcessResponseBody
deriving DecidableEq, Repr

/-- `process_search_endpoint` (`app.py` lines 282-306) on a POST
request, paired with the outbound calls of the dispatched background
task.  400 when the body is falsy or `query` or `connection_id` is
absent; otherwise the task is dispatched and 202 returned. -/
def process_search_endpoint (env : Env) (body? : Option ReqBody) :
    ProcessHttpResponse × List Outbound :=
  let err400 : ProcessHttpResponse :=
    { status := 400,
      body := { message := none, query := none, connection_id := none,
                error := some "Missing query or connection_id in request body." } }
  match body? with
  | none => (err400, [])
  | some b =>
    if b.falsy then (err400, [])
    else
      match b.query, b.connection_id with
      | some query_text, some connection_id =>
        let (_, calls) := process_semantic_search env query_text
        ({ status := 202,
           body := { message := some ("Semantic search processing started. "
                        ++ "Results will be sent via WebSocket."),
                     query := some query_text,
                     connection_id := some connection_id,
                     error := none } },
         calls)
      | _, _ => (err400, [])

/-- One entry of the `items` array of an OpenSearch `_bulk` response:
`hasError` is Python's `'error' in item.get('index', {})`. -/
structure BulkItem where
  hasError : Bool
deriving DecidableEq, Repr

/-- The decoded HTTP response of the `_bulk` request: `ok` is
`response.ok` (2xx status); `items` is `result.get('items', [])`. -/
structure BulkHttpResponse where
  ok : Bool
  items : List BulkItem
deriving DecidableEq, Repr

/-- Per-call oracle for `bulk_add_documents`: whether the endpoint
environment variable is set, whether `session.get_credentials()` yields
credentials, and what the signed `_bulk` POST returns (`.error` for a
transport or JSON-decoding exception). -/
structure BulkCtx where
  endpointConfigured : Bool
  credentialsAvailable : Bool
  response : Except String BulkHttpResponse
deriving Repr

/-- `bulk_add_documents` (`opensearch_client.py` lines 222-280).  The
`try` block raises on a missing endpoint or credentials and the
`except` clause converts every exception to `False`; on a 2xx response
it returns `False` when any item of the response carries an `error`,
`True` otherwise; a non-2xx response yields `False`. -/
def bulk_add_documents (ctx : BulkCtx) (_documents : List Source) : Bool :=
  if !ctx.endpointConfigured then false
  else if !ctx.credentialsAvailable then false
  else
    match ctx.response with
    | .error _ => false
    | .ok resp =>
      if resp.ok then
        let errors := resp.items.filter (fun item => item.hasError)
        if !errors.isEmpty then false
        else true
      else false

/-- One element of the `results` array of a Titan text-generation
response body. -/
structure LlmResultEntry where
  outputText : Option String
deriving DecidableEq, Repr

/-- The decoded response body of a text-generation `invoke_model` call:
Titan models answer with `results`, Anthropic-style models with
`completion` or `outputText`. -/
structure LlmResponseBody where
  results : Option (List LlmResultEntry)
  completion : Option String
  outputText : Option String
deriving DecidableEq, Repr

/-- Python's `a or b` on two optional strings: `a` wins when it is
present and truthy (non-empty). -/
def pyOrStr (a b : Option String) : Option String :=
  match a with
  | some s => if s.isEmpty then b else some s
  | none => b

/-- The response-parsing tail of `get_bedrock_llm_response`
(`llm_summarize_from_opensearch.py` lines 46-50): a present non-empty
`results` array yields its first entry's `outputText` (default `''`);
otherwise `completion or outputText`, which may be `None`. -/
def get_bedrock_llm_response (body : LlmResponseBody) : Option String :=
  match body.results with
  | some (entry :: _) => some (entry.outputText.getD "")
  | _ => pyOrStr body.completion body.outputText

/-- Python `f'{x}'` on a value that may be `None`. -/
def pyFormatOpt (x : Option String) : String :=
  match x with
  | some s => s
  | none => "None"

/-- Oracle for one run of `llm_summarize`: the embedding call, the
OpenSearch call, and the text-generation response body. -/
structure LlmEnv where
  embedding : EmbeddingCall
  search : SearchCall
  llmBody : LlmResponseBody

/-- `llm_summarize` (`llm_summarize_from_opensearch.py` lines 66-83):
embeds the query via `bedrock_embeddings.get_bedrock_embedding`
(exceptions propagate), searches OpenSearch (exceptions propagate),
returns the fixed message on zero hits, and otherwise
`f'{llm_response}'` for the model's completion.  Prompt construction
does not influence the modelled return value. -/
def llm_summarize (env : LlmEnv) (_query : String) : Except String String :=
  match get_bedrock_embedding env.embedding with
  | .error e => .error e
  | .ok _embedding =>
    match env.search with
    | .error e => .error e
    | .ok hits =>
      if hits.isEmpty then .ok "No relevant results found."
      else .ok (pyFormatOpt (get_bedrock_llm_response env.llmBody))

/-- Does this outbound call post a notification whose `status` is `s`? -/
def notifStatusIs (s : String) : Outbound → Bool
  | .postToConnection n => n.status == some s
  | _ => false

/-- Scenario hit with `POSITIVE` sentiment (spec §8's two-hit test). -/
def posHit : Hit :=
  { source := some { title := some "Doc A", summary := some "Sum A",
                     content := some "CA", sentiment_label := some "POSITIVE",
                     sentiment_score := some 1, category := some "news" },
    score := some 5 }

/-- Scenario hit with `NEGATIVE` sentiment (spec §8's two-hit test). -/
def negHit : Hit :=
  { source := some { title := some "Doc B", summary := some "Sum B",
                     content := some "CB", sentiment_label := some "NEGATIVE",
                     sentiment_score := some (-1), category := some "news" },
    score := some 4 }

/-- Scenario oracle: the embedding call yields a vector and the search
yields exactly the `POSITIVE` and the `NEGATIVE` hit. -/
def twoHitEnv : Env :=
  { embedding := .ok (some [1]), search := .ok [posHit, negHit] }

/-- The `response_parts` list the background flow builds in the two-hit
scenario. -/
def twoHitParts : List String :=
  composeParts "hello" [formatHit posHit, formatHit negHit]
    [formatHit posHit] [formatHit negHit]

/-! ## Theorems -/

/-- C3 counterexample: when the model call succeeds but the response
carries no `embedding` vector, both embedding clients return a normal
result (Python `None`), not a propagated error — refuting the claim
that this case fails with a propagated error. -/
theorem get_bedrock_embedding_missing_vector_is_not_an_error :
    get_bedrock_embedding (.ok none) = .ok none ∧
    get_bedrock_embedding_app (.ok none) = .ok none := by
  exact ⟨rfl, rfl⟩

/-- C3 (amended): the embedding client propagates an error exactly when
the underlying model call fails; a successful call returns the vector
when one is present (and non-empty), and `None` — without error — when
the response carries no vector or an empty one.  (`app.py`'s copy
forwards the optional vector unchanged.) -/
theorem get_bedrock_embedding_error_iff_call_fails (call : EmbeddingCall) :
    ((∃ e, get_bedrock_embedding call = .error e) ↔ (∃ e, call = .error e)) ∧
    (∀ emb, call = .ok (some emb) → emb ≠ [] →
       get_bedrock_embedding call = .ok (some emb)) ∧
    (call = .ok none ∨ call = .ok (some []) → get_bedrock_embedding call = .ok none) ∧
    get_bedrock_embedding_app call = call := by
  refine ⟨?_, ?_, ?_, ?_⟩
  · constructor
    · rintro ⟨e, he⟩
      cases call with
      | error e2 => exact ⟨e2, rfl⟩
      | ok body =>
        exfalso
        cases body with
        | none => simp [get_bedrock_embedding] at he
        | some emb =>
          simp only [get_bedrock_embedding] at he
          by_cases h : emb.isEmpty <;> simp [h] at he
    · rintro ⟨e, he⟩
      exact ⟨e, by simp [he, get_bedrock_embedding]⟩
  · intro emb hcall hne
    simp [hcall, get_bedrock_embedding, List.isEmpty_iff, hne]
  · rintro (h | h) <;> simp [h, get_bedrock_embedding, List.isEmpty]
  · cases call <;> rfl

/-- C3 witness: at the concrete call result `.ok (some [1])` the amended
theorem yields the vector unchanged. -/
theorem get_bedrock_embedding_error_iff_call_fails_witness :
    get_bedrock_embedding (.ok (some [1])) = .ok (some [1]) :=
  (get_bedrock_embedding_error_iff_call_fails (.ok (some [1]))).2.1 [1] rfl (by decide)

/-- C4: the result formatter copies every `_source` field through and
substitutes the coded defaults for absent ones: `Untitled` for the
title, the first 200 characters of content plus `...` for the summary,
the `Unknown` label and score `0` for missing sentiment fields (so a
hit lacking `sentiment_label` is formatted without error), score `0`
for a missing `_score`, and `Unknown` for a missing category.  The
formatter is a pure function by construction. -/
theorem formatHit_copies_fields_with_defaults (hit : Hit) :
    ((formatHit hit).content = ((hit.source.getD emptySource).content.getD "")) ∧
    (∀ t, (hit.source.getD emptySource).title = some t → (formatHit hit).title = t) ∧
    ((hit.source.getD emptySource).title = none → (formatHit hit).title = "Untitled") ∧
    (∀ s, (hit.source.getD emptySource).summary = some s → (formatHit hit).summary = s) ∧
    ((hit.source.getD emptySource).summary = none →
       (formatHit hit).summary =
         ((hit.source.getD emptySource).content.getD "").take 200 ++ "...") ∧
    (∀ sc, hit.score = some sc → (formatHit hit).score = sc) ∧
    (hit.score = none → (formatHit hit).score = 0) ∧
    (∀ lb, (hit.source.getD emptySource).sentiment_label = some lb →
       (formatHit hit).sentiment.label = lb) ∧
    ((hit.source.getD emptySource).sentiment_label = none →
       (formatHit hit).sentiment.label = "Unknown") ∧
    (∀ ss, (hit.source.getD emptySource).sentiment_score = some ss →
       (formatHit hit).sentiment.score = ss) ∧
    ((hit.source.getD emptySource).sentiment_score = none →
       (formatHit hit).sentiment.score = 0) ∧
    (∀ c, (hit.source.getD emptySource).category = some c →
       (formatHit hit).category = c) ∧
    ((hit.source.getD emptySource).category = none →
       (formatHit hit).category = "Unknown") := by
  refine ⟨rfl, ?_, ?_, ?_, ?_, ?_, ?_, ?_, ?_, ?_, ?_, ?_, ?_⟩ <;>
    intro h <;> simp_all [formatHit]

set_option maxRecDepth 10000 in
/-- C4 witness: a hit with an entirely absent `_source` and `_score` is
formatted to the default record — in particular the missing
`sentiment_label` becomes the `Unknown` placeholder. -/
theorem formatHit_copies_fields_with_defaults_witness :
    (formatHit { source := none, score := none }).sentiment.label = "Unknown" ∧
    (formatHit { source := none, score := none }).title = "Untitled" ∧
    (formatHit { source := none, score := none }).summary = "..." := by
  have h := formatHit_copies_fields_with_defaults { source := none, score := none }
  refine ⟨h.2.2.2.2.2.2.2.2.1 rfl, h.2.2.1 rfl, ?_⟩
  have h2 := h.2.2.2.2.1 rfl
  rw [h2]
  decide

/-- C5: the notification sender never propagates a delivery failure: for
every configuration, connection id, payload and transport outcome —
including the `GoneException` destination-gone condition — the function
returns normally; in particular a gone destination on a configured
client is logged and swallowed. -/
theorem send_websocket_message_never_raises (clientConfigured : Bool)
    (cid : String) (msg : Notification) (delivery : Delivery) :
    (∃ outcome, send_websocket_message clientConfigured cid msg delivery = .ok outcome) ∧
    send_websocket_message true cid msg .gone = .ok .loggedGone := by
  constructor
  · cases clientConfigured <;> cases delivery <;>
      exact ⟨_, rfl⟩
  · rfl

/-- C1: for every request to `POST /search` whose parsed body carries a
non-empty `query` field, the endpoint answers 200 with a JSON body whose
`results` field is a list and whose `total_results` field equals that
list's length — for every oracle outcome of the outbound calls. -/
theorem search_endpoint_total_results_is_length (env : Env) (wsConfigured : Bool)
    (b : ReqBody) (q : String) (hq : b.query = some q) (_hne : q ≠ "") :
    (search_endpoint env wsConfigured (some b)).1.status = 200 ∧
    ∃ l, (search_endpoint env wsConfigured (some b)).1.body.results = some l ∧
      (search_endpoint env wsConfigured (some b)).1.body.total_results = some l.length := by
  obtain ⟨bq, bc, bo⟩ := b
  cases hq
  exact ⟨rfl, (perform_semantic_search env q).1, rfl, rfl⟩

/-- C1 witness: a concrete body `{query: "hello"}` against an oracle
where the embedding call fails. -/
theorem search_endpoint_total_results_is_length_witness :
    (search_endpoint
        { embedding := .error "boom", search := .ok [] } true
        (some { query := some "hello", connection_id := none, otherKeys := false })).1.status
      = 200 ∧
    ∃ l, (search_endpoint
        { embedding := .error "boom", search := .ok [] } true
        (some { query := some "hello", connection_id := none,
                otherKeys := false })).1.body.results
        = some l ∧
      (search_endpoint
        { embedding := .error "boom", search := .ok [] } true
        (some { query := some "hello", connection_id := none,
                otherKeys := false })).1.body.total_results
        = some l.length :=
  search_endpoint_total_results_is_length
    { embedding := .error "boom", search := .ok [] } true
    { query := some "hello", connection_id := none, otherKeys := false }
    "hello" rfl (by decide)

/-- C2: a request body missing a required field (no parsed dict at all,
`/search` without `query`, `/process-search` without `query` or without
`connection_id`) yields status 400 and an empty outbound-call trace: no
embedding, search, notification or text-generation call is made. -/
theorem missing_required_fields_give_400_and_no_calls
    (env : Env) (ws : Bool) (b : ReqBody) :
    ((search_endpoint env ws none).1.status = 400 ∧ (search_endpoint env ws none).2 = []) ∧
    ((process_search_endpoint env none).1.status = 400 ∧
       (process_search_endpoint env none).2 = []) ∧
    (b.query = none →
       (search_endpoint env ws (some b)).1.status = 400 ∧
       (search_endpoint env ws (some b)).2 = []) ∧
    (b.query = none ∨ b.connection_id = none →
       (process_search_endpoint env (some b)).1.status = 400 ∧
       (process_search_endpoint env (some b)).2 = []) := by
  obtain ⟨bq, bc, bo⟩ := b
  refine ⟨⟨rfl, rfl⟩, ⟨rfl, rfl⟩, ?_, ?_⟩
  · rintro rfl
    cases bc <;> cases bo <;> exact ⟨rfl, rfl⟩
  · rintro (rfl | rfl)
    · cases bc <;> cases bo <;> exact ⟨rfl, rfl⟩
    · cases bq <;> cases bo <;> exact ⟨rfl, rfl⟩

/-- C2 witness: a body holding only `connection_id` gets 400 and no
outbound call from `/search`, and a body holding only `query` gets 400
and no outbound call from `/process-search`. -/
theorem missing_required_fields_give_400_and_no_calls_witness :
    ((search_endpoint { embedding := .ok (some [1]), search := .ok [] } true
        (some { query := none, connection_id := some "c1", otherKeys := false })).1.status
       = 400 ∧
     (search_endpoint { embedding := .ok (some [1]), search := .ok [] } true
        (some { query := none, connection_id := some "c1", otherKeys := false })).2 = []) ∧
    ((process_search_endpoint { embedding := .ok (some [1]), search := .ok [] }
        (some { query := some "hello", connection_id := none, otherKeys := false })).1.status
       = 400 ∧
     (process_search_endpoint { embedding := .ok (some [1]), search := .ok [] }
        (some { query := some "hello", connection_id := none, otherKeys := false })).2 = []) :=
  ⟨(missing_required_fields_give_400_and_no_calls
      { embedding := .ok (some [1]), search := .ok [] } true
      { query := none, connection_id := some "c1", otherKeys := false }).2.2.1 rfl,
   (missing_required_fields_give_400_and_no_calls
      { embedding := .ok (some [1]), search := .ok [] } true
      { query := some "hello", connection_id := none, otherKeys := false }).2.2.2
     (Or.inr rfl)⟩

/-- C10: `perform_semantic_search` swallows upstream failures: whenever
the embedding call or the search call raises, it returns the empty list
instead of propagating, and `POST /search` with a valid `query` then
answers 200 with an empty `results` list and `total_results = 0`
(never 500). -/
theorem perform_semantic_search_swallows_upstream_failure
    (env : Env) (ws : Bool) (b : ReqBody) (q : String)
    (hq : b.query = some q)
    (hfail : (∃ e, env.embedding = .error e) ∨ (∃ e, env.search = .error e)) :
    (perform_semantic_search env q).1 = [] ∧
    (search_endpoint env ws (some b)).1.status = 200 ∧
    (search_endpoint env ws (some b)).1.body.results = some [] ∧
    (search_endpoint env ws (some b)).1.body.total_results = some 0 := by
  have hperf : (perform_semantic_search env q).1 = [] := by
    rcases hfail with ⟨e, he⟩ | ⟨e, he⟩
    · simp [perform_semantic_search, get_bedrock_embedding_app, he]
    · cases hemb : env.embedding with
      | error e2 => simp [perform_semantic_search, get_bedrock_embedding_app, hemb]
      | ok body =>
        cases body with
        | none => simp [perform_semantic_search, get_bedrock_embedding_app, hemb]
        | some emb =>
          by_cases hlen : emb.isEmpty <;>
            simp [perform_semantic_search, get_bedrock_embedding_app, hemb, he, hlen]
  obtain ⟨bq, bc, bo⟩ := b
  cases hq
  refine ⟨hperf, rfl, ?_, ?_⟩ <;>
    simp [search_endpoint, ReqBody.falsy, hperf]

/-- C10 witness: with a failing search call and a succeeding embedding
call, the concrete request `{query: "hello"}` gets 200, `results = []`,
`total_results = 0`. -/
theorem perform_semantic_search_swallows_upstream_failure_witness :
    (perform_semantic_search { embedding := .ok (some [1]), search := .error "http 500" }
        "hello").1 = [] ∧
    (search_endpoint { embedding := .ok (some [1]), search := .error "http 500" } false
        (some { query := some "hello", connection_id := none, otherKeys := false })).1.status
      = 200 ∧
    (search_endpoint { embedding := .ok (some [1]), search := .error "http 500" } false
        (some { query := some "hello", connection_id := none, otherKeys := false })).1.body.results
      = some [] ∧
    (search_endpoint { embedding := .ok (some [1]), search := .error "http 500" } false
        (some { query := some "hello", connection_id := none,
                otherKeys := false })).1.body.total_results
      = some 0 :=
  perform_semantic_search_swallows_upstream_failure
    { embedding := .ok (some [1]), search := .error "http 500" } false
    { query := some "hello", connection_id := none, otherKeys := false }
    "hello" rfl (Or.inr ⟨"http 500", rfl⟩)

/-- Each rendered item of a message section contributes exactly three
lines, so a section of `rs` items has `3 * rs.length` item lines. -/
theorem enumItemsFrom_length (item : Nat → FormattedResult → List String)
    (h : ∀ i r, (item i r).length = 3) (i0 : Nat) (rs : List FormattedResult) :
    (enumItemsFrom item i0 rs).length = 3 * rs.length := by
  induction rs generalizing i0 with
  | nil => simp [enumItemsFrom]
  | cons r rs ih =>
    simp only [enumItemsFrom, List.length_append, List.length_cons, h, ih]
    ring

/-- Part-count bookkeeping for `composeParts`: one head line, then an
optional positive section (header plus three lines per item, at most 3
items), an optional negative section likewise, and the flat top-5
fallback exactly when both sentiment buckets are empty. -/
theorem composeParts_length (q : String) (results positive negative : List FormattedResult) :
    (composeParts q results positive negative).length =
      1 + (if positive.isEmpty then 0 else 1 + 3 * min 3 positive.length)
        + (if negative.isEmpty then 0 else 1 + 3 * min 3 negative.length)
        + (if positive.isEmpty && negative.isEmpty then 1 + 3 * min 5 results.length
           else 0) := by
  have hs : ∀ i r, (sentimentItemParts i r).length = 3 := fun i r => rfl
  have ht : ∀ i r, (topItemParts i r).length = 3 := fun i r => rfl
  cases hp : positive.isEmpty <;> cases hn : negative.isEmpty <;>
    simp [composeParts, hp, hn, enumItemsFrom_length _ hs, enumItemsFrom_length _ ht,
      List.length_take] <;>
    omega

set_option maxRecDepth 10000 in
/-- C6: whenever the background flow finds a non-empty result list, its
terminal `search_complete` notification carries the message composed by
`composeParts` from the results and their sentiment buckets; that
message has one head line, a positive and a negative section exactly
when the corresponding bucket is non-empty — each a header plus three
lines per item for at most `min 3` items — and the flat top-5 section
exactly when both buckets are empty.  In the concrete two-hit
POSITIVE/NEGATIVE scenario the parts contain exactly one
`Positive Sentiment Results` section and exactly one
`Negative Sentiment Results` section, each listing exactly one item. -/
theorem process_semantic_search_groups_by_sentiment
    (env : Env) (q : String) (results : List FormattedResult)
    (hres : (perform_semantic_search env q).1 = results) (hne : results ≠ []) :
    (∃ pre,
       (process_semantic_search env q).2 =
         pre ++ [.postToConnection
           { status := some "search_complete",
             message := some (joinNl (composeParts q results
               (results.filter (fun r => r.sentiment.label == "POSITIVE"))
               (results.filter (fun r => r.sentiment.label == "NEGATIVE")))),
             results := some results, query := some q,
             total_results := some results.length }]) ∧
    (∀ positive negative : List FormattedResult,
       (composeParts q results positive negative).length =
         1 + (if positive.isEmpty then 0 else 1 + 3 * min 3 positive.length)
           + (if negative.isEmpty then 0 else 1 + 3 * min 3 negative.length)
           + (if positive.isEmpty && negative.isEmpty then 1 + 3 * min 5 results.length
              else 0) ∧
       (positive.isEmpty = false →
          "**Positive Sentiment Results:**" ∈ composeParts q results positive negative) ∧
       (negative.isEmpty = false →
          "**Negative Sentiment Results:**" ∈ composeParts q results positive negative) ∧
       (positive.isEmpty = true → negative.isEmpty = true →
          "**Top Results:**" ∈ composeParts q results positive negative)) ∧
    ((process_semantic_search twoHitEnv "hello").2 =
       [.postToConnection
          { status := some "processing",
            message := some "Processing semantic search for: hello",
            results := none, query := none, total_results := none },
        .invokeEmbedding, .searchIndex,
        .postToConnection
          { status := some "search_complete",
            message := some (joinNl twoHitParts),
            results := some [formatHit posHit, formatHit negHit],
            query := some "hello", total_results := some 2 }] ∧
     twoHitParts =
       ["Found 2 results for \"hello\"\n",
        "**Positive Sentiment Results:**", "1. **Doc A**", "   Sum A",
        "   Score: 5 | Sentiment: 1\n",
        "**Negative Sentiment Results:**", "1. **Doc B**", "   Sum B",
        "   Score: 4 | Sentiment: -1\n"] ∧
     twoHitParts.count "**Positive Sentiment Results:**" = 1 ∧
     twoHitParts.count "**Negative Sentiment Results:**" = 1 ∧
     twoHitParts.count "1. **Doc A**" = 1 ∧
     twoHitParts.count "1. **Doc B**" = 1) := by
  refine ⟨?_, ?_, ?_⟩
  · obtain ⟨res, calls, hpc⟩ : ∃ res calls, perform_semantic_search env q = (res, calls) :=
      ⟨_, _, rfl⟩
    rw [hpc] at hres
    simp only at hres
    subst hres
    have hemp : res.isEmpty = false := by
      cases res with
      | nil => exact absurd rfl hne
      | cons a l => rfl
    refine ⟨.postToConnection
        { status := some "processing",
          message := some ("Processing semantic search for: " ++ q),
          results := none, query := none, total_results := none } :: calls, ?_⟩
    simp [process_semantic_search, hpc, hemp]
  · intro positive negative
    refine ⟨composeParts_length q results positive negative, ?_, ?_, ?_⟩
    · intro hp
      simp [composeParts, hp]
    · intro hn
      cases hp : positive.isEmpty <;> simp [composeParts, hp, hn]
    · intro hp hn
      simp [composeParts, hp, hn]
  · exact ⟨by decide, by decide, by decide, by decide, by decide, by decide⟩

set_option maxRecDepth 10000 in
/-- C6 witness: the general part applied to the concrete two-hit run:
its results are non-empty and the terminal notification carries the
composed message. -/
theorem process_semantic_search_groups_by_sentiment_witness :
    ∃ pre,
      (process_semantic_search twoHitEnv "hello").2 =
        pre ++ [.postToConnection
          { status := some "search_complete",
            message := some (joinNl (composeParts "hello"
              [formatHit posHit, formatHit negHit]
              ([formatHit posHit, formatHit negHit].filter
                 (fun r => r.sentiment.label == "POSITIVE"))
              ([formatHit posHit, formatHit negHit].filter
                 (fun r => r.sentiment.label == "NEGATIVE")))),
            results := some [formatHit posHit, formatHit negHit],
            query := some "hello",
            total_results := some [formatHit posHit, formatHit negHit].length }] :=
  (process_semantic_search_groups_by_sentiment twoHitEnv "hello"
    [formatHit posHit, formatHit negHit] (by decide) (by decide)).1

/-- C7: when the search call returns zero hits, `/process-search` with a
well-formed body answers 202 and the dispatched background flow posts
exactly one notification whose `status` is `no_results` (whatever the
embedding call did). -/
theorem process_search_zero_hits_one_no_results
    (env : Env) (b : ReqBody) (q cid : String)
    (hq : b.query = some q) (hc : b.connection_id = some cid)
    (hsearch : env.search = .ok []) :
    (process_search_endpoint env (some b)).1.status = 202 ∧
    ((process_search_endpoint env (some b)).2.countP (notifStatusIs "no_results")) = 1 := by
  obtain ⟨bq, bc, bo⟩ := b
  cases hq
  cases hc
  refine ⟨rfl, ?_⟩
  show ((process_semantic_search env q).2.countP (notifStatusIs "no_results")) = 1
  cases hemb : env.embedding with
  | error e =>
    simp [process_semantic_search, perform_semantic_search, get_bedrock_embedding_app,
      hemb, notifStatusIs]
  | ok body =>
    cases body with
    | none =>
      simp [process_semantic_search, perform_semantic_search, get_bedrock_embedding_app,
        hemb, notifStatusIs]
    | some emb =>
      cases hlen : emb.isEmpty <;>
        simp [process_semantic_search, perform_semantic_search, get_bedrock_embedding_app,
          hemb, hsearch, hlen, notifStatusIs]

/-- C7 witness: concrete request `{query: "hello", connection_id: "c1"}`
against an oracle whose search returns zero hits. -/
theorem process_search_zero_hits_one_no_results_witness :
    (process_search_endpoint { embedding := .ok (some [1]), search := .ok [] }
       (some { query := some "hello", connection_id := some "c1",
               otherKeys := false })).1.status = 202 ∧
    ((process_search_endpoint { embedding := .ok (some [1]), search := .ok [] }
       (some { query := some "hello", connection_id := some "c1",
               otherKeys := false })).2.countP (notifStatusIs "no_results")) = 1 :=
  process_search_zero_hits_one_no_results
    { embedding := .ok (some [1]), search := .ok [] }
    { query := some "hello", connection_id := some "c1", otherKeys := false }
    "hello" "c1" rfl rfl rfl

/-- C8: when its embedding call succeeds, the summarization composer
answers the fixed `No relevant results found.` message exactly when the
search step returns zero hits, and otherwise the (string-rendered)
completion parsed from the text-generation model's response. -/
theorem llm_summarize_fixed_message_or_completion
    (env : LlmEnv) (q : String) (hits : List Hit) (emb : Option Embedding)
    (hemb : env.embedding = .ok emb) (hsearch : env.search = .ok hits) :
    (hits = [] → llm_summarize env q = .ok "No relevant results found.") ∧
    (hits ≠ [] →
       llm_summarize env q = .ok (pyFormatOpt (get_bedrock_llm_response env.llmBody))) := by
  obtain ⟨r, hr⟩ : ∃ r, get_bedrock_embedding env.embedding = .ok r := by
    rw [hemb]
    cases emb with
    | none => exact ⟨none, rfl⟩
    | some l =>
      cases hl : l.isEmpty
      · exact ⟨some l, by simp [get_bedrock_embedding, hl]⟩
      · exact ⟨none, by simp [get_bedrock_embedding, hl]⟩
  constructor
  · rintro rfl
    simp [llm_summarize, hr, hsearch]
  · intro h
    simp [llm_summarize, hr, hsearch, List.isEmpty_iff, h]

/-- C8 witness: one hit and a Titan-style response body whose first
`results` entry carries `outputText`. -/
theorem llm_summarize_fixed_message_or_completion_witness :
    llm_summarize
      { embedding := .ok (some [1]), search := .ok [posHit],
        llmBody := { results := some [{ outputText := some "summary text" }],
                     completion := none, outputText := none } } "hello"
      = .ok "summary text" := by
  have h := (llm_summarize_fixed_message_or_completion
    { embedding := .ok (some [1]), search := .ok [posHit],
      llmBody := { results := some [{ outputText := some "summary text" }],
                   completion := none, outputText := none } }
    "hello" [posHit] (some [1]) rfl rfl).2 (by decide)
  rw [h]
  rfl

/-- `bulk_add_documents` reports success exactly when the endpoint and
credentials are available, the `_bulk` POST neither raised nor answered
a non-2xx status, and no response item carries an `error`. -/
theorem bulk_add_documents_eq_true_iff (ctx : BulkCtx) (docs : List Source) :
    bulk_add_documents ctx docs = true ↔
      ctx.endpointConfigured = true ∧ ctx.credentialsAvailable = true ∧
      ∃ resp, ctx.response = .ok resp ∧ resp.ok = true ∧
        resp.items.filter (fun item => item.hasError) = [] := by
  unfold bulk_add_documents
  cases hep : ctx.endpointConfigured <;> cases hcr : ctx.credentialsAvailable <;> simp
  cases hresp : ctx.response with
  | error e => simp
  | ok resp =>
    cases hok : resp.ok <;>
      cases hfil : (resp.items.filter (fun item => item.hasError)).isEmpty <;>
      simp_all [List.isEmpty_iff]

/-- C9: the bulk upsert reports success only if the HTTP response has a
success status and no per-item error is present; whenever any item of
the bulk response carries an error, it reports failure. -/
theorem bulk_add_documents_success_requires_no_item_errors
    (ctx : BulkCtx) (docs : List Source) :
    (bulk_add_documents ctx docs = true →
       ∃ resp, ctx.response = .ok resp ∧ resp.ok = true ∧
         resp.items.all (fun item => !item.hasError) = true) ∧
    (∀ resp, ctx.response = .ok resp →
       (∃ item ∈ resp.items, item.hasError = true) →
       bulk_add_documents ctx docs = false) := by
  constructor
  · intro h
    obtain ⟨-, -, resp, hresp, hok, hfil⟩ := (bulk_add_documents_eq_true_iff ctx docs).1 h
    refine ⟨resp, hresp, hok, ?_⟩
    rw [List.all_eq_true]
    intro item hmem
    have := List.filter_eq_nil_iff.1 hfil item hmem
    simpa using this
  · intro resp hresp ⟨item, hmem, herr⟩
    cases hb : bulk_add_documents ctx docs with
    | false => rfl
    | true =>
      obtain ⟨-, -, resp2, hresp2, -, hfil⟩ := (bulk_add_documents_eq_true_iff ctx docs).1 hb
      rw [hresp] at hresp2
      cases hresp2
      have := List.filter_eq_nil_iff.1 hfil item hmem
      simp [herr] at this

/-- C9 witness: a 2xx bulk response whose single item carries an error
is reported as failure. -/
theorem bulk_add_documents_success_requires_no_item_errors_witness :
    bulk_add_documents
      { endpointConfigured := true, credentialsAvailable := true,
        response := .ok { ok := true, items := [{ hasError := true }] } } [] = false :=
  (bulk_add_documents_success_requires_no_item_errors
      { endpointConfigured := true, credentialsAvailable := true,
        response := .ok { ok := true, items := [{ hasError := true }] } } []).2
    { ok := true, items := [{ hasError := true }] } rfl
    ⟨{ hasError := true }, by decide, rfl⟩

end SemanticSearch
